import Mathlib

/-!
Shallow embedding of the SpaceX dashboard callbacks in
src/spacex-dash-app.py.

The dataset spacex_df is modelled as a list of LaunchRecord values;
each record carries the four columns the callbacks read:
Launch Site, Payload Mass (kg), Booster Version Category, class.
Payload masses and success rates are rationals; outcome class is a
natural number that is 0 or 1 in real data.

The two Dash callbacks get_pie_chart and get_scatter_chart are
embedded as pure functions of (dataset, inputs).  pandas groupby
sorts group keys ascending, which is modelled by insertion-sorting
the deduplicated key list; Series.sort_values(ascending=False) on the
booster rates is modelled by sorting the rate pairs with the
rate-descending relation rateGE.
-/

structure LaunchRecord where
  site : String
  payloadMassKg : ℚ
  boosterCategory : String
  outcomeClass : ℕ
deriving DecidableEq, Repr

/-- Sum of the class column over a list of records; this is what
pandas computes for groupby('Launch Site')['class'].sum() on one
group. -/
def classSum (rs : List LaunchRecord) : ℕ :=
  (rs.map (fun r => r.outcomeClass)).sum

/-- Code-point comparison of characters, the order Python uses to
compare the characters of two strings. -/
def charLt (c d : Char) : Bool := c.val.toNat < d.val.toNat

/-- Lexicographic string comparison by code point, the order pandas
uses when sorting string group keys. -/
def strLeList : List Char → List Char → Bool
  | [], _ => true
  | _ :: _, [] => false
  | c :: cs, d :: ds =>
    if charLt c d then true else if charLt d c then false else strLeList cs ds

/-- String comparison on the underlying character lists. -/
def strLe (a b : String) : Bool := strLeList a.data b.data

/-- The distinct launch sites of the dataset in ascending order, as
produced by pandas groupby on the Launch Site column. -/
def siteKeys (db : List LaunchRecord) : List String :=
  List.insertionSort (fun a b => strLe a b = true) (db.map (fun r => r.site)).dedup

/-- The distinct outcome classes of a record list in ascending order,
as produced by px.pie counting occurrences of each value of the
names column. -/
def classKeys (rs : List LaunchRecord) : List ℕ :=
  List.insertionSort (fun a b => a ≤ b) (rs.map (fun r => r.outcomeClass)).dedup

/-- One pie category of the ALL branch: a site label with the sum of
the class column over that site's records. -/
def siteCat (db : List LaunchRecord) (s : String) : String × ℕ :=
  (s, classSum (db.filter (fun r => decide (r.site = s))))

/-- One pie category of the single-site branch: an outcome-class
label with the number of records carrying that class. -/
def classCat (rs : List LaunchRecord) (c : ℕ) : String × ℕ :=
  (toString c, (rs.filter (fun r => decide (r.outcomeClass = c))).length)

/-- Embedding of get_pie_chart (src/spacex-dash-app.py lines 74-91).
The figure is abstracted to its data: a list of (category label,
value) pairs together with the title string.  For the ALL branch the
categories are the sites with their class sums; for a specific site
the categories are the distinct class values with their counts. -/
def get_pie_chart (db : List LaunchRecord) (entered_site : String) :
    List (String × ℕ) × String :=
  if entered_site = "ALL" then
    ((siteKeys db).map (siteCat db), "Total Successful Launches by Site")
  else
    let filtered_df := db.filter (fun r => decide (r.site = entered_site))
    ((classKeys filtered_df).map (classCat filtered_df),
      "Launch Outcomes (Success/Failure) for " ++ entered_site)

/-- Mean of the class column times 100, the success rate used both
for the scatter title and for the per-booster statistics. -/
def successRate (rs : List LaunchRecord) : ℚ :=
  (rs.map (fun r => (r.outcomeClass : ℚ))).sum / (rs.length : ℚ) * 100

/-- Python percent-style formatting with two decimal places, as in
the f-string rate:.2f of the source. -/
def format2 (q : ℚ) : String :=
  let n : ℤ := round (q * 100)
  let ip : ℤ := n / 100
  let fp : ℕ := (n % 100).toNat
  toString ip ++ "." ++ (if fp < 10 then "0" else "") ++ toString fp

/-- Line 104-105 of the source: keep payload masses in [low, high]. -/
def payloadFiltered (db : List LaunchRecord) (low high : ℚ) : List LaunchRecord :=
  db.filter (fun r => decide (low ≤ r.payloadMassKg ∧ r.payloadMassKg ≤ high))

/-- Lines 108-112: the dataframe to plot, further restricted to the
selected site unless the sentinel ALL was chosen. -/
def plotRows (db : List LaunchRecord) (entered_site : String) (low high : ℚ) :
    List LaunchRecord :=
  if entered_site = "ALL" then payloadFiltered db low high
  else (payloadFiltered db low high).filter (fun r => decide (r.site = entered_site))

/-- Lines 110 and 113: the base title of the scatter chart. -/
def scatterBaseTitle (entered_site : String) : String :=
  if entered_site = "ALL" then "Payload vs. Success Correlation (All Sites)"
  else "Payload vs. Success Correlation for " ++ entered_site

/-- Rate-descending comparison on (category, rate) pairs, the order
used by sort_values(ascending=False) on the booster rates. -/
def rateGE (a b : String × ℚ) : Prop := b.2 ≤ a.2

instance : DecidableRel rateGE := fun a b => inferInstanceAs (Decidable (b.2 ≤ a.2))

instance : IsTotal (String × ℚ) rateGE := ⟨fun a b => le_total b.2 a.2⟩

instance : IsTrans (String × ℚ) rateGE := ⟨fun _ _ _ h1 h2 => le_trans h2 h1⟩

/-- The distinct booster categories of a record list in ascending
order, as produced by pandas groupby on Booster Version Category. -/
def boosterKeys (rs : List LaunchRecord) : List String :=
  List.insertionSort (fun a b => strLe a b = true)
    (rs.map (fun r => r.boosterCategory)).dedup

/-- One (category, rate) pair of the booster statistics: the success
rate over the records of one booster category. -/
def ratePair (rs : List LaunchRecord) (c : String) : String × ℚ :=
  (c, successRate (rs.filter (fun r => decide (r.boosterCategory = c))))

/-- Lines 133 and 142: the per-booster success rates, one pair per
booster category present, sorted with the highest rate first. -/
def boosterRates (rs : List LaunchRecord) : List (String × ℚ) :=
  List.insertionSort rateGE ((boosterKeys rs).map (ratePair rs))

/-- Result of the scatter callback: the plotted row set, the chart
title, and the (category, rate) pairs rendered in the stats div. -/
structure ScatterResult where
  rows : List LaunchRecord
  title : String
  boosterStats : List (String × ℚ)
deriving DecidableEq, Repr

/-- Embedding of get_scatter_chart (src/spacex-dash-app.py lines
100-151).  The returned figure is abstracted to the plotted row set
and the title; the stats children are abstracted to the ordered
(category, rate) pairs. -/
def get_scatter_chart (db : List LaunchRecord) (entered_site : String)
    (low high : ℚ) : ScatterResult :=
  { rows := plotRows db entered_site low high,
    title := scatterBaseTitle entered_site ++
      (if (plotRows db entered_site low high).length > 0 then
        " - Overall Success: " ++
          format2 (successRate (plotRows db entered_site low high)) ++ "%"
      else " - (No Data for this selection)"),
    boosterStats :=
      if (plotRows db entered_site low high).length > 0 then
        boosterRates (plotRows db entered_site low high)
      else [] }

/-- The example dataset of the specification: three launches over two
sites and two booster categories. -/
def exampleDB : List LaunchRecord :=
  [⟨"SiteA", 500, "BoosterX", 1⟩,
   ⟨"SiteA", 1500, "BoosterY", 0⟩,
   ⟨"SiteB", 2000, "BoosterX", 1⟩]

/-- Modelled global state of the application: the shared dataframe
spacex_df that both callbacks read. -/
def AppState : Type := List LaunchRecord

/-- The pie callback as a state transformer over the shared
dataframe.  The source reads spacex_df and never assigns to it, so
the state handed back is the state received. -/
def runPieCallback (st : AppState) (entered_site : String) :
    (List (String × ℕ) × String) × AppState :=
  (get_pie_chart st entered_site, st)

/-- The scatter callback as a state transformer over the shared
dataframe; as in the source it only reads spacex_df. -/
def runScatterCallback (st : AppState) (entered_site : String) (low high : ℚ) :
    ScatterResult × AppState :=
  (get_scatter_chart st entered_site low high, st)

/-- Membership in the plotted row set: a record survives exactly when
its payload is in the closed range and, for a non-ALL filter, its
site matches. -/
theorem mem_plotRows (db : List LaunchRecord) (s : String) (low high : ℚ)
    (r : LaunchRecord) :
    r ∈ plotRows db s low high ↔
      r ∈ db ∧ (low ≤ r.payloadMassKg ∧ r.payloadMassKg ≤ high) ∧
        (s ≠ "ALL" → r.site = s) := by
  by_cases hs : s = "ALL" <;>
    simp [plotRows, payloadFiltered, hs, List.mem_filter, decide_eq_true_eq] <;>
    tauto

/-- If every payload lies strictly below the lower bound the plotted
row set is empty. -/
theorem plotRows_eq_nil_of_high_lt_low (db : List LaunchRecord) (s : String)
    (low high : ℚ) (h : ∀ r ∈ db, r.payloadMassKg < low) :
    plotRows db s low high = [] := by
  apply List.eq_nil_iff_forall_not_mem.mpr
  intro r hr
  rcases (mem_plotRows db s low high r).mp hr with ⟨hdb, ⟨hlow, _⟩, _⟩
  exact absurd hlow (not_le.mpr (h r hdb))

/-- If the range is inverted the plotted row set is empty. -/
theorem plotRows_eq_nil_of_inverted (db : List LaunchRecord) (s : String)
    (low high : ℚ) (h : high < low) : plotRows db s low high = [] := by
  apply List.eq_nil_iff_forall_not_mem.mpr
  intro r hr
  rcases (mem_plotRows db s low high r).mp hr with ⟨_, ⟨hlow, hhigh⟩, _⟩
  exact absurd (le_trans hlow hhigh) (not_le.mpr h)

/-- C1: for every site filter s and payload range (low, high) with
low ≤ high, get_scatter_chart keeps exactly the records whose payload
mass lies in the closed interval [low, high] and, when s is not the
sentinel ALL, whose site equals s; when s is ALL no site filtering is
applied. -/
theorem scatter_rows_selection (db : List LaunchRecord) (s : String)
    (low high : ℚ) (h : low ≤ high) (r : LaunchRecord) :
    r ∈ (get_scatter_chart db s low high).rows ↔
      r ∈ db ∧ (low ≤ r.payloadMassKg ∧ r.payloadMassKg ≤ high) ∧
        (s ≠ "ALL" → r.site = s) :=
  mem_plotRows db s low high r

/-- Witness for C1 at the example dataset: the 500 kg SiteA record
survives the ALL filter with range [0, 10000]. -/
theorem scatter_rows_selection_witness :
    (0 : ℚ) ≤ 10000 ∧
      ((⟨"SiteA", 500, "BoosterX", 1⟩ : LaunchRecord) ∈
        (get_scatter_chart exampleDB "ALL" 0 10000).rows) :=
  ⟨by norm_num,
    (scatter_rows_selection exampleDB "ALL" 0 10000 (by norm_num)
        ⟨"SiteA", 500, "BoosterX", 1⟩).mpr
      ⟨by exact List.mem_cons_self _ _, by norm_num, fun hc => absurd rfl hc⟩⟩

/-- C2: if the filtered row set is non-empty the scatter title is the
base title followed by the overall success rate (mean of the class
column times 100) formatted to two decimal places; if it is empty,
in particular whenever every payload lies strictly below the lower
bound, the row set is empty and the no-data suffix is used. -/
theorem scatter_title_spec (db : List LaunchRecord) (s : String) (low high : ℚ) :
    ((get_scatter_chart db s low high).rows ≠ [] →
      (get_scatter_chart db s low high).title =
        scatterBaseTitle s ++
          (" - Overall Success: " ++
            format2 (successRate (get_scatter_chart db s low high).rows) ++ "%"))
    ∧ ((get_scatter_chart db s low high).rows = [] →
      (get_scatter_chart db s low high).title =
        scatterBaseTitle s ++ " - (No Data for this selection)")
    ∧ ((∀ r ∈ db, r.payloadMassKg < low) →
      (get_scatter_chart db s low high).rows = [] ∧
        (get_scatter_chart db s low high).title =
          scatterBaseTitle s ++ " - (No Data for this selection)") := by
  refine ⟨?_, ?_, ?_⟩
  · intro h
    have hlen : (plotRows db s low high).length > 0 := List.length_pos.mpr h
    simp only [get_scatter_chart]
    rw [if_pos hlen]
  · intro h
    have hlen : ¬(plotRows db s low high).length > 0 := by
      simp only [get_scatter_chart] at h
      simp [h]
    simp only [get_scatter_chart]
    rw [if_neg hlen]
  · intro h
    have hp : plotRows db s low high = [] :=
      plotRows_eq_nil_of_high_lt_low db s low high h
    constructor
    · exact hp
    · simp only [get_scatter_chart]
      rw [hp]
      simp

/-- Witness for C2 at the example dataset: the non-empty branch gives
the success-rate title there. -/
theorem scatter_title_spec_witness :
    (get_scatter_chart exampleDB "ALL" 0 10000).title =
      scatterBaseTitle "ALL" ++
        (" - Overall Success: " ++
          format2 (successRate (get_scatter_chart exampleDB "ALL" 0 10000).rows) ++
          "%") :=
  (scatter_title_spec exampleDB "ALL" 0 10000).1 (by with_unfolding_all decide)

/-- C7: under the invariant that payload masses are nonnegative, the
ALL filter over the range [0, M] for any upper bound M of the payload
column keeps every row, so the plotted row count is the dataset row
count. -/
theorem scatter_full_range_count (db : List LaunchRecord) (M : ℚ)
    (h0 : ∀ r ∈ db, 0 ≤ r.payloadMassKg) (hM : ∀ r ∈ db, r.payloadMassKg ≤ M) :
    (get_scatter_chart db "ALL" 0 M).rows.length = db.length := by
  have hrows : plotRows db "ALL" 0 M = db := by
    unfold plotRows payloadFiltered
    rw [if_pos rfl]
    apply List.filter_eq_self.mpr
    intro r hr
    simp only [decide_eq_true_eq]
    exact ⟨h0 r hr, hM r hr⟩
  show (plotRows db "ALL" 0 M).length = db.length
  rw [hrows]

/-- Witness for C7: on the example dataset with its maximum payload
2000 the filter keeps all three rows. -/
theorem scatter_full_range_count_witness :
    (get_scatter_chart exampleDB "ALL" 0 2000).rows.length = exampleDB.length :=
  scatter_full_range_count exampleDB 2000 (by with_unfolding_all decide)
    (by with_unfolding_all decide)

/-- C10: for an inverted range (low > high) get_scatter_chart returns
the empty row set, the no-data title, and the empty booster-rate
sequence, raising no error. -/
theorem scatter_inverted_range (db : List LaunchRecord) (s : String)
    (low high : ℚ) (h : high < low) :
    (get_scatter_chart db s low high).rows = [] ∧
      (get_scatter_chart db s low high).title =
        scatterBaseTitle s ++ " - (No Data for this selection)" ∧
      (get_scatter_chart db s low high).boosterStats = [] := by
  have hp : plotRows db s low high = [] :=
    plotRows_eq_nil_of_inverted db s low high h
  refine ⟨hp, ?_, ?_⟩ <;> simp [get_scatter_chart, hp]

/-- Witness for C10 at the inverted range (10, 5). -/
theorem scatter_inverted_range_witness :
    (get_scatter_chart exampleDB "ALL" 10 5).rows = [] ∧
      (get_scatter_chart exampleDB "ALL" 10 5).title =
        scatterBaseTitle "ALL" ++ " - (No Data for this selection)" ∧
      (get_scatter_chart exampleDB "ALL" 10 5).boosterStats = [] :=
  scatter_inverted_range exampleDB "ALL" 10 5 (by norm_num)

/-- The booster keys are exactly the booster categories present. -/
theorem mem_boosterKeys (rs : List LaunchRecord) (c : String) :
    c ∈ boosterKeys rs ↔ c ∈ rs.map (fun r => r.boosterCategory) := by
  unfold boosterKeys
  rw [List.mem_insertionSort, List.mem_dedup]

/-- The booster keys carry no duplicates. -/
theorem boosterKeys_nodup (rs : List LaunchRecord) : (boosterKeys rs).Nodup :=
  ((List.perm_insertionSort _ _).nodup_iff).mpr (List.nodup_dedup _)

/-- The booster statistics are a permutation of the key-indexed rate
pairs. -/
theorem boosterRates_perm (rs : List LaunchRecord) :
    List.Perm (boosterRates rs) ((boosterKeys rs).map (ratePair rs)) :=
  List.perm_insertionSort rateGE _

/-- Membership in the booster statistics. -/
theorem mem_boosterRates (rs : List LaunchRecord) (p : String × ℚ) :
    p ∈ boosterRates rs ↔ ∃ c ∈ boosterKeys rs, ratePair rs c = p := by
  unfold boosterRates
  rw [List.mem_insertionSort]
  exact List.mem_map

/-- C3: when the filtered row set is empty the booster-rate sequence
is empty; when it is non-empty the sequence is sorted non-increasingly
by rate, carries each booster category present exactly once, and each
pair's rate is the success rate over that category's rows. -/
theorem scatter_booster_stats_spec (db : List LaunchRecord) (s : String)
    (low high : ℚ) :
    ((get_scatter_chart db s low high).rows = [] →
      (get_scatter_chart db s low high).boosterStats = [])
    ∧ ((get_scatter_chart db s low high).rows ≠ [] →
        List.Sorted rateGE (get_scatter_chart db s low high).boosterStats
        ∧ ((get_scatter_chart db s low high).boosterStats.map Prod.fst).Nodup
        ∧ (∀ c : String,
            (∃ x : ℚ, (c, x) ∈ (get_scatter_chart db s low high).boosterStats) ↔
              c ∈ (get_scatter_chart db s low high).rows.map
                (fun r => r.boosterCategory))
        ∧ (∀ p ∈ (get_scatter_chart db s low high).boosterStats,
            p.2 = successRate ((get_scatter_chart db s low high).rows.filter
              (fun r => decide (r.boosterCategory = p.1))))) := by
  constructor
  · intro h
    have hlen : ¬(plotRows db s low high).length > 0 := by
      have h0 : plotRows db s low high = [] := h
      simp [h0]
    show (if (plotRows db s low high).length > 0
          then boosterRates (plotRows db s low high) else []) = []
    rw [if_neg hlen]
  · intro h
    have hlen : (plotRows db s low high).length > 0 := List.length_pos.mpr h
    have hstats : (get_scatter_chart db s low high).boosterStats =
        boosterRates (plotRows db s low high) := by
      show (if (plotRows db s low high).length > 0
            then boosterRates (plotRows db s low high) else []) = _
      rw [if_pos hlen]
    have hrows : (get_scatter_chart db s low high).rows =
        plotRows db s low high := rfl
    rw [hstats, hrows]
    refine ⟨List.sorted_insertionSort rateGE _, ?_, ?_, ?_⟩
    · have hperm := (boosterRates_perm (plotRows db s low high)).map Prod.fst
      have hmf : (((boosterKeys (plotRows db s low high)).map
            (ratePair (plotRows db s low high))).map Prod.fst) =
          boosterKeys (plotRows db s low high) := by
        rw [List.map_map]
        exact List.map_id _
      refine hperm.nodup_iff.mpr ?_
      rw [hmf]
      exact boosterKeys_nodup _
    · intro c
      constructor
      · rintro ⟨x, hx⟩
        rcases (mem_boosterRates _ _).mp hx with ⟨k, hk, hfk⟩
        have hkc : k = c := congrArg Prod.fst hfk
        exact (mem_boosterKeys _ c).mp (hkc ▸ hk)
      · intro hc
        refine ⟨(ratePair (plotRows db s low high) c).2, ?_⟩
        exact (mem_boosterRates _ _).mpr ⟨c, (mem_boosterKeys _ c).mpr hc, rfl⟩
    · intro p hp
      rcases (mem_boosterRates _ _).mp hp with ⟨k, _, hfk⟩
      rw [← hfk]
      rfl

/-- Witness for C3: on the example dataset the stats are sorted with
the highest rate first. -/
theorem scatter_booster_stats_spec_witness :
    List.Sorted rateGE (get_scatter_chart exampleDB "ALL" 0 10000).boosterStats :=
  ((scatter_booster_stats_spec exampleDB "ALL" 0 10000).2
    (by with_unfolding_all decide)).1

/-- The site keys are exactly the sites present in the dataset. -/
theorem mem_siteKeys (db : List LaunchRecord) (s : String) :
    s ∈ siteKeys db ↔ s ∈ db.map (fun r => r.site) := by
  unfold siteKeys
  rw [List.mem_insertionSort, List.mem_dedup]

/-- The site keys carry no duplicates. -/
theorem siteKeys_nodup (db : List LaunchRecord) : (siteKeys db).Nodup :=
  ((List.perm_insertionSort _ _).nodup_iff).mpr (List.nodup_dedup _)

/-- The class keys are exactly the outcome classes present. -/
theorem mem_classKeys (rs : List LaunchRecord) (c : ℕ) :
    c ∈ classKeys rs ↔ c ∈ rs.map (fun r => r.outcomeClass) := by
  unfold classKeys
  rw [List.mem_insertionSort, List.mem_dedup]

/-- The class keys are a permutation of the deduplicated class
column. -/
theorem classKeys_perm (rs : List LaunchRecord) :
    List.Perm (classKeys rs) (rs.map (fun r => r.outcomeClass)).dedup :=
  List.perm_insertionSort _ _

/-- C4: for the sentinel ALL the pie chart has exactly one category
per distinct site, valued with the sum of the class column over that
site's records, under the all-sites title. -/
theorem pie_all_spec (db : List LaunchRecord) :
    (get_pie_chart db "ALL").2 = "Total Successful Launches by Site"
    ∧ ((get_pie_chart db "ALL").1.map Prod.fst).Nodup
    ∧ (∀ s : String, (∃ v : ℕ, (s, v) ∈ (get_pie_chart db "ALL").1) ↔
        s ∈ db.map (fun r => r.site))
    ∧ (∀ p ∈ (get_pie_chart db "ALL").1,
        p.2 = classSum (db.filter (fun r => decide (r.site = p.1)))) := by
  have hcats : (get_pie_chart db "ALL").1 = (siteKeys db).map (siteCat db) := by
    unfold get_pie_chart
    rw [if_pos rfl]
  have htitle : (get_pie_chart db "ALL").2 = "Total Successful Launches by Site" := by
    unfold get_pie_chart
    rw [if_pos rfl]
  refine ⟨htitle, ?_, ?_, ?_⟩
  · rw [hcats, List.map_map]
    have hmf : Prod.fst ∘ siteCat db = id := rfl
    rw [hmf, List.map_id]
    exact siteKeys_nodup db
  · intro s
    rw [hcats]
    constructor
    · rintro ⟨v, hv⟩
      rcases List.mem_map.mp hv with ⟨k, hk, hfk⟩
      have hks : k = s := congrArg Prod.fst hfk
      exact (mem_siteKeys db s).mp (hks ▸ hk)
    · intro hs
      exact ⟨(siteCat db s).2,
        List.mem_map.mpr ⟨s, (mem_siteKeys db s).mpr hs, rfl⟩⟩
  · intro p hp
    rw [hcats] at hp
    rcases List.mem_map.mp hp with ⟨k, _, hfk⟩
    rw [← hfk]
    rfl

/-- Witness for C4: the example dataset has a SiteA category. -/
theorem pie_all_spec_witness :
    ∃ v : ℕ, ("SiteA", v) ∈ (get_pie_chart exampleDB "ALL").1 :=
  ((pie_all_spec exampleDB).2.2.1 "SiteA").mpr (by with_unfolding_all decide)

/-- The per-class record count equals the count of that class in the
class column. -/
theorem length_filter_class (F : List LaunchRecord) (c : ℕ) :
    (F.filter (fun r => decide (r.outcomeClass = c))).length =
      (F.map (fun r => r.outcomeClass)).count c := by
  induction F with
  | nil => rfl
  | cons a t ih =>
    simp only [List.map_cons, List.count_cons, List.filter_cons]
    by_cases h : a.outcomeClass = c
    · simp [h, ih]
    · simp [h, ih, Ne.symm h]

/-- The category values of the single-site pie branch sum to the
number of filtered records. -/
theorem classCat_sum (F : List LaunchRecord) :
    (((classKeys F).map (classCat F)).map Prod.snd).sum = F.length := by
  rw [List.map_map]
  have hsum := ((classKeys_perm F).map
    (fun c => (F.filter (fun r => decide (r.outcomeClass = c))).length)).sum_eq
  have hfun : (Prod.snd ∘ classCat F) =
      fun c => (F.filter (fun r => decide (r.outcomeClass = c))).length := rfl
  rw [hfun, hsum]
  have hcnt : ((F.map (fun r => r.outcomeClass)).dedup.map
        (fun c => (F.filter (fun r => decide (r.outcomeClass = c))).length)) =
      ((F.map (fun r => r.outcomeClass)).dedup.map
        (fun c => (F.map (fun r => r.outcomeClass)).count c)) := by
    apply List.map_congr_left
    intro c _
    exact length_filter_class F c
  rw [hcnt, List.sum_map_count_dedup_eq_length, List.length_map]

/-- C5: for a concrete site s the pie chart has one category per
distinct outcome class present among the records of s, valued with
the count of those records, so the values sum to the number of
records of s. -/
theorem pie_site_spec (db : List LaunchRecord) (s : String) (hs : s ≠ "ALL")
    (hmem : s ∈ db.map (fun r => r.site)) :
    (get_pie_chart db s).2 = "Launch Outcomes (Success/Failure) for " ++ s
    ∧ (get_pie_chart db s).1.length =
        ((db.filter (fun r => decide (r.site = s))).map
          (fun r => r.outcomeClass)).dedup.length
    ∧ (∀ c ∈ (db.filter (fun r => decide (r.site = s))).map
          (fun r => r.outcomeClass),
        classCat (db.filter (fun r => decide (r.site = s))) c ∈
          (get_pie_chart db s).1)
    ∧ (∀ p ∈ (get_pie_chart db s).1,
        ∃ c ∈ (db.filter (fun r => decide (r.site = s))).map
            (fun r => r.outcomeClass),
          p = classCat (db.filter (fun r => decide (r.site = s))) c)
    ∧ ((get_pie_chart db s).1.map Prod.snd).sum =
        (db.filter (fun r => decide (r.site = s))).length := by
  have hcats : (get_pie_chart db s).1 =
      (classKeys (db.filter (fun r => decide (r.site = s)))).map
        (classCat (db.filter (fun r => decide (r.site = s)))) := by
    unfold get_pie_chart
    rw [if_neg hs]
  have htitle : (get_pie_chart db s).2 =
      "Launch Outcomes (Success/Failure) for " ++ s := by
    unfold get_pie_chart
    rw [if_neg hs]
  refine ⟨htitle, ?_, ?_, ?_, ?_⟩
  · rw [hcats, List.length_map]
    exact (classKeys_perm _).length_eq
  · intro c hc
    rw [hcats]
    exact List.mem_map.mpr ⟨c, (mem_classKeys _ c).mpr hc, rfl⟩
  · intro p hp
    rw [hcats] at hp
    rcases List.mem_map.mp hp with ⟨k, hk, hfk⟩
    exact ⟨k, (mem_classKeys _ k).mp hk, hfk.symm⟩
  · rw [hcats]
    exact classCat_sum _

/-- Witness for C5 at site SiteA of the example dataset: the category
values sum to the two SiteA records. -/
theorem pie_site_spec_witness :
    ((get_pie_chart exampleDB "SiteA").1.map Prod.snd).sum =
      (exampleDB.filter (fun r => decide (r.site = "SiteA"))).length :=
  (pie_site_spec exampleDB "SiteA" (by decide)
      (by with_unfolding_all decide)).2.2.2.2

/-- C6: a site filter that is neither ALL nor a site of the dataset
yields the empty category list and no error. -/
theorem pie_unknown_site (db : List LaunchRecord) (s : String) (hs : s ≠ "ALL")
    (hmem : s ∉ db.map (fun r => r.site)) : (get_pie_chart db s).1 = [] := by
  have hfil : db.filter (fun r => decide (r.site = s)) = [] := by
    apply List.filter_eq_nil_iff.mpr
    intro r hr
    simp only [decide_eq_true_eq]
    intro hsite
    exact hmem (List.mem_map.mpr ⟨r, hr, hsite⟩)
  have hcats : (get_pie_chart db s).1 =
      (classKeys (db.filter (fun r => decide (r.site = s)))).map
        (classCat (db.filter (fun r => decide (r.site = s)))) := by
    unfold get_pie_chart
    rw [if_neg hs]
  rw [hcats, hfil]
  rfl

/-- Witness for C6 at the unknown site Nowhere. -/
theorem pie_unknown_site_witness :
    (get_pie_chart exampleDB "Nowhere").1 = [] :=
  pie_unknown_site exampleDB "Nowhere" (by decide)
    (by with_unfolding_all decide)

/-- C8: on the concrete example dataset the ALL pie chart yields the
categories (SiteA, 1) and (SiteB, 1), and the ALL scatter over the
range [0, 10000] yields an overall success rate formatting as 66.67
percent and the ordered booster rates (BoosterX, 100), (BoosterY, 0). -/
theorem example_dataset_results :
    (get_pie_chart exampleDB "ALL").1 = [("SiteA", 1), ("SiteB", 1)]
    ∧ (get_scatter_chart exampleDB "ALL" 0 10000).title =
        "Payload vs. Success Correlation (All Sites) - Overall Success: 66.67%"
    ∧ (get_scatter_chart exampleDB "ALL" 0 10000).boosterStats =
        [("BoosterX", 100), ("BoosterY", 0)] := by
  refine ⟨?_, ?_, ?_⟩ <;> with_unfolding_all decide

/-- C9: both callbacks leave the shared dataset unchanged: run as
state transformers they hand back exactly the dataframe they were
given. -/
theorem callbacks_preserve_dataset (db : AppState) (s : String) (low high : ℚ) :
    (runPieCallback db s).2 = db ∧ (runScatterCallback db s low high).2 = db :=
  ⟨rfl, rfl⟩
